import Mathlib

/-!
Verification of the deterministic promotion-admissibility verifier
(`aura-governance-hub/tools/ecm_reference.py` and
`aura-governance-hub/tools/ace_governance_stack.py`).

Python dicts are modelled either as typed structures whose `Option` fields
record key presence (`none` = key absent), or — where the code manipulates
arbitrary JSON-like values — as an inductive `Json` type.  Python floats are
modelled as real numbers; Python exceptions as `Except String`.
-/

instance {ε α : Type} [DecidableEq ε] [DecidableEq α] : DecidableEq (Except ε α) :=
  fun a b =>
    match a, b with
    | .ok x, .ok y =>
        if h : x = y then isTrue (by rw [h]) else isFalse (by intro hc; cases hc; exact h rfl)
    | .error x, .error y =>
        if h : x = y then isTrue (by rw [h]) else isFalse (by intro hc; cases hc; exact h rfl)
    | .ok _, .error _ => isFalse (by intro hc; cases hc)
    | .error _, .ok _ => isFalse (by intro hc; cases hc)

namespace ECM

/-- `CLASS_ORDER` from `ecm_reference.py`: the fixed six-class lattice. -/
def CLASS_ORDER : List String :=
  ["E0_SPECULATIVE", "E1_STRUCTURAL", "E2_INFORMATIONAL",
   "E3_CAUSAL", "E4_HISTORICAL", "E5_PHYSICAL"]

/-- `class_index`: position of a class name in `CLASS_ORDER`; the Python
raises `ValueError` for an unknown class, modelled as `Except.error`. -/
def class_index (class_name : String) : Except String Nat :=
  match CLASS_ORDER.indexOf? class_name with
  | some i => .ok i
  | none => .error ("Unknown existence class: " ++ class_name)

/-- `validate_monotonic_transition` from `ecm_reference.py`. -/
def validate_monotonic_transition (from_class to_class : String)
    (one_step_only : Bool) : Except String (Bool × String) := do
  let fi ← class_index from_class
  let ti ← class_index to_class
  if ti < fi then
    return (false, "NON_MONOTONIC_BACKWARD")
  if one_step_only ∧ ti ≠ fi + 1 then
    return (false, "NON_MONOTONIC_SKIP")
  return (true, "OK")

/-- JSON-like structured values: the shape of the Python dicts handled by
`canonical_json_bytes`.  Objects are ordered key/value lists, mirroring
Python dict insertion order; numerals are modelled as rationals. -/
inductive Json where
  | null
  | bool (b : Bool)
  | num (q : ℚ)
  | str (s : String)
  | arr (elems : List Json)
  | obj (entries : List (String × Json))

/-- Hex digit used by the `\uXXXX` escapes of `json.dumps`. -/
def hexDigit (n : Nat) : Char :=
  if n < 10 then Char.ofNat (48 + n) else Char.ofNat (97 + n - 10)

/-- Escaping of one character inside a JSON string literal, as done by
`json.dumps` with `ensure_ascii=False` (backslash, quote, the short control
escapes, `\u00XX` for the remaining control characters). -/
def escapeChar (c : Char) : String :=
  if c = '"' then "\\\""
  else if c = '\\' then "\\\\"
  else if c = '\x08' then "\\b"
  else if c = '\x0c' then "\\f"
  else if c = '\n' then "\\n"
  else if c = '\r' then "\\r"
  else if c = '\t' then "\\t"
  else if c.toNat < 32 then
    "\\u00" ++ String.mk [hexDigit (c.toNat / 16), hexDigit (c.toNat % 16)]
  else String.singleton c

/-- A JSON string literal: quotes around the escaped characters. -/
def renderString (s : String) : String :=
  "\"" ++ String.join (s.toList.map escapeChar) ++ "\""

/-- Decimal form of a JSON numeral (the concrete digits of Python float
`repr` are abstracted; all that matters is that it is a function of the
value). -/
def renderNum (q : ℚ) : String :=
  toString q.num ++ (if q.den = 1 then "" else "/" ++ toString q.den)

/-- Order on object entries used when serializing with `sort_keys=True`:
compare the keys. -/
def entryLE (p q : String × Json) : Prop := p.1 ≤ q.1

instance : DecidableRel entryLE :=
  fun p q => inferInstanceAs (Decidable (p.1 ≤ q.1))

instance : IsTotal (String × Json) entryLE :=
  ⟨fun p q => le_total p.1 q.1⟩

instance : IsTrans (String × Json) entryLE :=
  ⟨fun _ _ _ h h' => le_trans h h'⟩

/-- Strict key order on object entries (used only in proofs). -/
def entryLT (p q : String × Json) : Prop := p.1 < q.1

instance : IsAntisymm (String × Json) entryLT :=
  ⟨fun _ _ h h' => absurd (lt_trans h h') (lt_irrefl _)⟩

mutual

/-- Serialization of a JSON value with `separators=(",", ":")` (no
insignificant whitespace), as performed by `json.dumps`. -/
def render : Json → String
  | .null => "null"
  | .bool true => "true"
  | .bool false => "false"
  | .num q => renderNum q
  | .str s => renderString s
  | .arr xs => "[" ++ renderList xs ++ "]"
  | .obj kvs => "\x7b" ++ renderEntries kvs ++ "\x7d"

/-- Comma-separated serialization of array elements. -/
def renderList : List Json → String
  | [] => ""
  | [x] => render x
  | x :: y :: xs => render x ++ "," ++ renderList (y :: xs)

/-- Comma-separated serialization of `key:value` object entries. -/
def renderEntries : List (String × Json) → String
  | [] => ""
  | [(k, v)] => renderString k ++ ":" ++ render v
  | (k, v) :: e :: kvs => renderString k ++ ":" ++ render v ++ "," ++ renderEntries (e :: kvs)

end

mutual

/-- Recursive key-sorting pass of `json.dumps(..., sort_keys=True)`: every
object's entries are put in ascending key order, at every depth. -/
def canonJson : Json → Json
  | .null => .null
  | .bool b => .bool b
  | .num q => .num q
  | .str s => .str s
  | .arr xs => .arr (canonList xs)
  | .obj kvs => .obj (List.insertionSort entryLE (canonEntries kvs))

/-- `canonJson` mapped over array elements. -/
def canonList : List Json → List Json
  | [] => []
  | x :: xs => canonJson x :: canonList xs

/-- `canonJson` mapped over the values of object entries. -/
def canonEntries : List (String × Json) → List (String × Json)
  | [] => []
  | (k, v) :: kvs => (k, canonJson v) :: canonEntries kvs

end

/-- `canonical_json_bytes` from `ecm_reference.py`:
`json.dumps(obj, sort_keys=True, separators=(",", ":"), ensure_ascii=False)`
— serialized with all object keys sorted, no whitespace; the byte sequence
is the UTF-8 encoding of this string. -/
def canonical_json_bytes (obj : Json) : String :=
  render (canonJson obj)

/-- `payload.pop("signatures", None)`: drop the named key of a dict (a
non-dict value is left unchanged; the code only applies this to dicts). -/
def jsonPop (j : Json) (key : String) : Json :=
  match j with
  | .obj kvs => .obj (kvs.filter (fun p => p.1 ≠ key))
  | other => other

/-- `proof_payload_for_signing` from `ecm_reference.py`: deep-copy the
proof, remove the `signatures` field, canonical-serialize the rest. -/
def proof_payload_for_signing (proof : Json) : String :=
  canonical_json_bytes (jsonPop proof "signatures")

/-- Python dicts cannot hold duplicate keys: every object of a value coming
from `json.loads`/dict literals has pairwise-distinct keys, at every depth. -/
inductive NodupKeys : Json → Prop where
  | null : NodupKeys .null
  | bool (b : Bool) : NodupKeys (.bool b)
  | num (q : ℚ) : NodupKeys (.num q)
  | str (s : String) : NodupKeys (.str s)
  | arr {xs : List Json} : (∀ x ∈ xs, NodupKeys x) → NodupKeys (.arr xs)
  | obj {kvs : List (String × Json)} : (kvs.map Prod.fst).Nodup →
      (∀ p ∈ kvs, NodupKeys p.2) → NodupKeys (.obj kvs)

/-- Logical equality of JSON values: identical atoms, pointwise-equal
arrays, and objects equal up to permuting their entry lists — at any
nesting depth (`objPerm` may be interleaved with `objCons` descent). -/
inductive JEquiv : Json → Json → Prop where
  | null : JEquiv .null .null
  | bool (b : Bool) : JEquiv (.bool b) (.bool b)
  | num (q : ℚ) : JEquiv (.num q) (.num q)
  | str (s : String) : JEquiv (.str s) (.str s)
  | arrNil : JEquiv (.arr []) (.arr [])
  | arrCons {x y : Json} {xs ys : List Json} :
      JEquiv x y → JEquiv (.arr xs) (.arr ys) →
      JEquiv (.arr (x :: xs)) (.arr (y :: ys))
  | objNil : JEquiv (.obj []) (.obj [])
  | objCons {k : String} {v w : Json} {kvs lws : List (String × Json)} :
      JEquiv v w → JEquiv (.obj kvs) (.obj lws) →
      JEquiv (.obj ((k, v) :: kvs)) (.obj ((k, w) :: lws))
  | objPerm {kvs₁ kvs₂ : List (String × Json)} {b : Json} :
      kvs₁.Perm kvs₂ → JEquiv (.obj kvs₂) b → JEquiv (.obj kvs₁) b

/-- `JEquiv` is reflexive. -/
def jequivRefl : (j : Json) → JEquiv j j
  | .null => .null
  | .bool b => .bool b
  | .num q => .num q
  | .str s => .str s
  | .arr [] => .arrNil
  | .arr (x :: xs) => .arrCons (jequivRefl x) (jequivRefl (.arr xs))
  | .obj [] => .objNil
  | .obj ((_, v) :: kvs) => .objCons (jequivRefl v) (jequivRefl (.obj kvs))

/-- `canonEntries` is a `map` over the entry list. -/
theorem canonEntries_eq_map (kvs : List (String × Json)) :
    canonEntries kvs = kvs.map (fun p => (p.1, canonJson p.2)) := by
  induction kvs with
  | nil => rfl
  | cons p kvs ih => cases p; simp [canonEntries, ih]

/-- `canonEntries` leaves the keys untouched. -/
theorem canonEntries_keys (kvs : List (String × Json)) :
    (canonEntries kvs).map Prod.fst = kvs.map Prod.fst := by
  rw [canonEntries_eq_map, List.map_map]
  rfl

/-- A `≤`-sorted entry list with pairwise-distinct keys is strictly
key-sorted. -/
theorem sorted_entryLT_of_sorted_le {l : List (String × Json)}
    (hs : List.Sorted entryLE l) (hn : (l.map Prod.fst).Nodup) :
    List.Sorted entryLT l := by
  have h2 : l.Pairwise (fun p q : String × Json => p.1 ≠ q.1) :=
    (List.pairwise_map).mp hn
  exact hs.imp₂ (fun p q hle hne => lt_of_le_of_ne hle hne) h2

/-- Key-sorting two permuted entry lists with distinct keys gives the same
list. -/
theorem insertionSort_eq_of_perm {l₁ l₂ : List (String × Json)}
    (hp : l₁.Perm l₂) (hn : (l₁.map Prod.fst).Nodup) :
    List.insertionSort entryLE l₁ = List.insertionSort entryLE l₂ := by
  have hps : (List.insertionSort entryLE l₁).Perm (List.insertionSort entryLE l₂) :=
    (List.perm_insertionSort _ _).trans (hp.trans (List.perm_insertionSort _ _).symm)
  have hn₁ : ((List.insertionSort entryLE l₁).map Prod.fst).Nodup :=
    (((List.perm_insertionSort entryLE l₁).map Prod.fst).nodup_iff).mpr hn
  have hn₂ : ((List.insertionSort entryLE l₂).map Prod.fst).Nodup :=
    ((hps.map Prod.fst).nodup_iff).mp hn₁
  exact List.eq_of_perm_of_sorted hps
    (sorted_entryLT_of_sorted_le (List.sorted_insertionSort entryLE l₁) hn₁)
    (sorted_entryLT_of_sorted_le (List.sorted_insertionSort entryLE l₂) hn₂)

/-- Core invariance: logically-equal JSON values (same fields and values,
any object entry order, at any depth) canonicalize to the same value,
provided object keys are duplicate-free. -/
theorem canonJson_eq_of_jequiv {a b : Json} (h : JEquiv a b)
    (ha : NodupKeys a) : canonJson a = canonJson b := by
  induction h with
  | null => rfl
  | bool b => rfl
  | num q => rfl
  | str s => rfl
  | arrNil => rfl
  | arrCons hx hxs ihx ihxs =>
    rename_i x y xs ys
    cases ha with
    | arr hall =>
      have h1 : canonJson x = canonJson y := ihx (hall x (by simp))
      have h2 : canonList xs = canonList ys := by
        have := ihxs (NodupKeys.arr (fun z hz => hall z (by simp [hz])))
        simpa [canonJson] using this
      simp only [canonJson, canonList]
      rw [h1, h2]
  | objNil => rfl
  | objCons hv hkvs ihv ihkvs =>
    rename_i k v w kvs lws
    cases ha with
    | obj hnk hvals =>
      have h1 : canonJson v = canonJson w := ihv (hvals (k, v) (by simp))
      have htail : NodupKeys (.obj kvs) :=
        NodupKeys.obj (by simpa using hnk.of_cons)
          (fun p hp => hvals p (by simp [hp]))
      have h2 : List.insertionSort entryLE (canonEntries kvs)
          = List.insertionSort entryLE (canonEntries lws) := by
        have := ihkvs htail
        simpa [canonJson] using this
      simp only [canonJson, canonEntries, List.insertionSort]
      rw [h1, h2]
  | objPerm hp hkb ih =>
    rename_i kvs₁ kvs₂ b
    cases ha with
    | obj hnk hvals =>
      have hnk₂ : (kvs₂.map Prod.fst).Nodup := ((hp.map Prod.fst).nodup_iff).mp hnk
      have hb : NodupKeys (.obj kvs₂) :=
        NodupKeys.obj hnk₂ (fun p hp2 => hvals p (hp.mem_iff.mpr hp2))
      have hstep : canonJson (.obj kvs₁) = canonJson (.obj kvs₂) := by
        simp only [canonJson, Json.obj.injEq]
        refine insertionSort_eq_of_perm ?_ ?_
        · rw [canonEntries_eq_map, canonEntries_eq_map]
          exact hp.map _
        · rw [canonEntries_keys]; exact hnk
      exact hstep.trans (ih hb)

end ECM

open ECM

namespace ECM

noncomputable section

/-- `np.finfo(np.float64).tiny`, the clamp floor used before taking logs. -/
def tinyFloat : ℝ := 2 ^ (-(1022 : ℤ))

/-- `effective_dimension_from_singulars` from `ecm_reference.py`: clamp the
singular values to be non-negative, normalize them into a probability
vector, clamp to `[tiny, 1]`, take Shannon entropy in nats, exponentiate. -/
def effective_dimension_from_singulars (singular_values : List ℝ) : ℝ :=
  if singular_values = [] then 0
  else
    let s := singular_values.map (fun x => max x 0)
    let total := s.sum
    if total ≤ 0 then 0
    else
      let p := s.map (fun x => x / total)
      let p2 := p.map (fun x => min (max x tinyFloat) 1)
      let entropy := -((p2.map (fun x => x * Real.log x)).sum)
      Real.exp entropy

/-- `deltaf_rank_surrogate` from `ecm_reference.py`. -/
def deltaf_rank_surrogate (prior_singulars posterior_singulars : List ℝ) : ℝ :=
  let d_prior := effective_dimension_from_singulars prior_singulars
  let d_post := effective_dimension_from_singulars posterior_singulars
  if d_prior ≤ 0 then 0 else 1 - d_post / d_prior

/-- The `_logdet` helper of `deltaf_entropy_surrogate`: clamp the singular
values of the matrix to `[tiny, ∞)` and sum their logs. -/
def logdet_from_singulars (s : List ℝ) : ℝ :=
  (s.map (fun x => Real.log (max x tinyFloat))).sum

/-- `deltaf_entropy_surrogate` from `ecm_reference.py`: the log-determinant
path over raw covariance matrices.  numpy's SVD is external numeric code,
so it is modelled as a parameter `svd` returning each matrix's singular
values; the clamp-then-sum-log pattern is translated exactly. -/
def deltaf_entropy_surrogate (svd : List (List ℝ) → List ℝ)
    (cov_prior cov_post : List (List ℝ)) : ℝ :=
  let log_prior := logdet_from_singulars (svd cov_prior)
  let log_post := logdet_from_singulars (svd cov_post)
  if log_prior = 0 then 0 else 1 - log_post / log_prior

/-- `deltaf_entropy_from_nats` from `ecm_reference.py`. -/
def deltaf_entropy_from_nats (prior_entropy_nats posterior_entropy_nats : ℝ) : ℝ :=
  if prior_entropy_nats = 0 then 0
  else 1 - posterior_entropy_nats / prior_entropy_nats

/-- A `prior_summary` / `posterior_summary` dict: `Option` fields record
which keys are present (`none` = key absent). -/
structure Summary where
  entropy_nats : Option ℝ := none
  singular_values : Option (List ℝ) := none
  cov : Option (List (List ℝ)) := none

/-- A `promotion_proof` dict as read by the evaluator. -/
structure PromotionProof where
  promotion_request_id : Option String := none
  method : Option String := none
  prior_summary : Summary := {}
  posterior_summary : Summary := {}
  deltaF : Option ℝ := none
  constraints_satisfied : List String := []

/-- The `policy_thresholds` sub-dict of a `promotion_request`. -/
structure PolicyThresholds where
  deltaF_threshold : Option ℝ := none
  required_constraints : List String := []

/-- A `promotion_request` dict. -/
structure PromotionRequest where
  request_id : Option String := none
  from_class : Option String := none
  to_class : Option String := none
  policy_thresholds : PolicyThresholds := {}

/-- A `(promotion_request, promotion_proof)` bundle. -/
structure PromotionBundle where
  promotion_request : PromotionRequest := {}
  promotion_proof : PromotionProof := {}

/-- `recompute_deltaf_from_proof` from `ecm_reference.py`: dispatch on
`proof.method`; raised `ValueError`s are modelled as `Except.error`. -/
def recompute_deltaf_from_proof (proof : PromotionProof) : Except String ℝ :=
  let method := proof.method
  let prior := proof.prior_summary
  let post := proof.posterior_summary
  if method = some "rank_surrogate" then
    match prior.singular_values, post.singular_values with
    | some s_prior, some s_post => .ok (deltaf_rank_surrogate s_prior s_post)
    | _, _ => .error "rank_surrogate requires prior/posterior singular_values"
  else if method = some "entropy_surrogate" ∨ method = some "gaussian_transfer" then
    match prior.entropy_nats, post.entropy_nats with
    | some a, some b => .ok (deltaf_entropy_from_nats a b)
    | _, _ => .error "entropy method requires entropy_nats in summaries"
  else
    .error ("Unsupported or unverifiable method: " ++ method.getD "None")

/-- The evaluation report dict: `Option` fields record which keys the
returned dict carries (`none` = key absent in that return). -/
structure EvalReport where
  status : String
  reasons : List String
  recomputed_deltaF : Option ℝ := none
  claimed_deltaF : Option ℝ := none
  threshold_deltaF : Option ℝ := none
  missing_constraints : Option (List String) := none

/-- `sorted(set(required) - set(satisfied))`: the sorted, duplicate-free
list of required constraints that are not satisfied. -/
def sorted_missing_constraints (required satisfied : List String) : List String :=
  List.insertionSort (fun a b : String => a ≤ b)
    ((required.filter (fun c => c ∉ satisfied)).dedup)

/-- `evaluate_promotion_bundle` from `ecm_reference.py`.  The uncaught
`ValueError` of `class_index` on an unknown class name surfaces as
`Except.error`; every other path returns a report. -/
def evaluate_promotion_bundle (bundle : PromotionBundle) (numeric_tolerance : ℝ) :
    Except String EvalReport :=
  let req := bundle.promotion_request
  let proof := bundle.promotion_proof
  if req.request_id ≠ proof.promotion_request_id then
    .ok { status := "VETO_POLICY", reasons := ["REQUEST_PROOF_ID_MISMATCH"] }
  else
    match validate_monotonic_transition (req.from_class.getD "") (req.to_class.getD "") true with
    | .error e => .error e
    | .ok (monotonic_ok, monotonic_reason) =>
      if ¬ monotonic_ok then
        .ok { status := "VETO_POLICY", reasons := [monotonic_reason] }
      else
        match recompute_deltaf_from_proof proof with
        | .error exc =>
          .ok { status := "VETO_POLICY", reasons := ["DELTAF_RECOMPUTE_ERROR:" ++ exc] }
        | .ok recomputed_deltaf =>
          let deltaf_claimed := proof.deltaF.getD 0
          if |recomputed_deltaf - deltaf_claimed| > numeric_tolerance then
            .ok { status := "VETO_POLICY", reasons := ["DELTAF_MISMATCH"],
                  recomputed_deltaF := some recomputed_deltaf,
                  claimed_deltaF := some deltaf_claimed }
          else
            let threshold := req.policy_thresholds.deltaF_threshold.getD 0
            let status1 := if recomputed_deltaf < threshold then "REFUSE_UNCERTAIN" else "PASS"
            let reasons1 : List String :=
              if recomputed_deltaf < threshold then ["DELTAF_BELOW_THRESHOLD"] else []
            let missing_constraints :=
              sorted_missing_constraints req.policy_thresholds.required_constraints
                proof.constraints_satisfied
            let status2 := if missing_constraints ≠ [] then "VETO_POLICY" else status1
            let reasons2 :=
              if missing_constraints ≠ [] then reasons1 ++ ["MISSING_REQUIRED_CONSTRAINTS"]
              else reasons1
            let reasons3 := if reasons2 = [] then ["OK"] else reasons2
            .ok { status := status2, reasons := reasons3,
                  recomputed_deltaF := some recomputed_deltaf,
                  threshold_deltaF := some threshold,
                  missing_constraints := some missing_constraints }

end

end ECM

/-- **C5**: two logically-equal JSON structures — same fields and values,
object entries permuted arbitrarily at any nesting depth — canonicalize to
identical byte sequences via `canonical_json_bytes`; and
`proof_payload_for_signing` omits the `signatures` field before
serialization (a proof carrying a `signatures` entry canonicalizes to the
bytes of the same object without it). -/
theorem spec_c5_canonical_json_invariance :
    (∀ a b : Json, JEquiv a b → NodupKeys a →
      canonical_json_bytes a = canonical_json_bytes b) ∧
    (∀ (kvs : List (String × Json)) (v : Json),
      "signatures" ∉ kvs.map Prod.fst →
      proof_payload_for_signing (.obj (("signatures", v) :: kvs))
        = canonical_json_bytes (.obj kvs)) := by
  constructor
  · intro a b h ha
    unfold canonical_json_bytes
    rw [canonJson_eq_of_jequiv h ha]
  · intro kvs v hnot
    have hpop : jsonPop (.obj (("signatures", v) :: kvs)) "signatures" = .obj kvs := by
      show Json.obj ((("signatures", v) :: kvs).filter (fun p => p.1 ≠ "signatures"))
          = Json.obj kvs
      rw [List.filter_cons_of_neg (by simp)]
      congr 1
      refine List.filter_eq_self.mpr (fun p hp => ?_)
      have hne : p.1 ≠ "signatures" := by
        intro hk
        exact hnot (List.mem_map.mpr ⟨p, hp, hk⟩)
      simpa using hne
    unfold proof_payload_for_signing
    rw [hpop]

/-- Witness for C5: a two-key object with permuted entries canonicalizes to
the same bytes, and a payload with a `signatures` entry serializes like the
object without it. -/
theorem spec_c5_canonical_json_invariance_witness :
    canonical_json_bytes (.obj [("b", .num 1), ("a", .null)])
      = canonical_json_bytes (.obj [("a", .null), ("b", .num 1)]) ∧
    proof_payload_for_signing (.obj [("signatures", .arr []), ("deltaF", .num 1)])
      = canonical_json_bytes (.obj [("deltaF", .num 1)]) := by
  constructor
  · refine spec_c5_canonical_json_invariance.1 _ _
      (JEquiv.objPerm (List.Perm.swap ("a", Json.null) ("b", Json.num 1) [])
        (jequivRefl _)) ?_
    refine NodupKeys.obj (by decide) ?_
    intro p hp
    simp only [List.mem_cons, List.not_mem_nil, or_false] at hp
    rcases hp with h | h <;> subst h
    · exact NodupKeys.num 1
    · exact NodupKeys.null
  · exact spec_c5_canonical_json_invariance.2 [("deltaF", .num 1)] (.arr [])
      (by simp)

/-- **C6**: over the fixed six-class order, a self-transition under
`one_step_only` yields `(false, NON_MONOTONIC_SKIP)`; any backward pair
yields `(false, NON_MONOTONIC_BACKWARD)`; any forward non-adjacent pair
under `one_step_only` yields `(false, NON_MONOTONIC_SKIP)`; and every
exactly-adjacent pair yields `(true, OK)`. -/
theorem spec_c6_monotonic_transition :
    (∀ c ∈ CLASS_ORDER,
      validate_monotonic_transition c c true = .ok (false, "NON_MONOTONIC_SKIP")) ∧
    (∀ a ∈ CLASS_ORDER, ∀ b ∈ CLASS_ORDER,
      CLASS_ORDER.indexOf b < CLASS_ORDER.indexOf a →
      validate_monotonic_transition a b true = .ok (false, "NON_MONOTONIC_BACKWARD")) ∧
    (∀ a ∈ CLASS_ORDER, ∀ b ∈ CLASS_ORDER,
      CLASS_ORDER.indexOf a + 1 < CLASS_ORDER.indexOf b →
      validate_monotonic_transition a b true = .ok (false, "NON_MONOTONIC_SKIP")) ∧
    (∀ a ∈ CLASS_ORDER, ∀ b ∈ CLASS_ORDER,
      CLASS_ORDER.indexOf b = CLASS_ORDER.indexOf a + 1 →
      validate_monotonic_transition a b true = .ok (true, "OK")) := by
  decide

/-- Witness for C6: concrete instances of each clause. -/
theorem spec_c6_monotonic_transition_witness :
    validate_monotonic_transition "E2_INFORMATIONAL" "E2_INFORMATIONAL" true
      = .ok (false, "NON_MONOTONIC_SKIP") ∧
    validate_monotonic_transition "E3_CAUSAL" "E1_STRUCTURAL" true
      = .ok (false, "NON_MONOTONIC_BACKWARD") ∧
    validate_monotonic_transition "E0_SPECULATIVE" "E2_INFORMATIONAL" true
      = .ok (false, "NON_MONOTONIC_SKIP") ∧
    validate_monotonic_transition "E4_HISTORICAL" "E5_PHYSICAL" true
      = .ok (true, "OK") := by
  refine ⟨?_, ?_, ?_, ?_⟩
  · exact spec_c6_monotonic_transition.1 "E2_INFORMATIONAL" (by decide)
  · exact spec_c6_monotonic_transition.2.1 "E3_CAUSAL" (by decide)
      "E1_STRUCTURAL" (by decide) (by decide)
  · exact spec_c6_monotonic_transition.2.2.1 "E0_SPECULATIVE" (by decide)
      "E2_INFORMATIONAL" (by decide) (by decide)
  · exact spec_c6_monotonic_transition.2.2.2 "E4_HISTORICAL" (by decide)
      "E5_PHYSICAL" (by decide) (by decide)


/-- Helper shared by the threshold/constraint claims: once checks 1-4 of
`evaluate_promotion_bundle` pass, the returned report is the final
accumulated one — the threshold and constraint checks both run and every
diagnostic field is present. -/
theorem evaluate_promotion_bundle_final (bundle : PromotionBundle) (tol d : ℝ) (mr : String)
    (hid : bundle.promotion_request.request_id = bundle.promotion_proof.promotion_request_id)
    (hmono : validate_monotonic_transition (bundle.promotion_request.from_class.getD "")
      (bundle.promotion_request.to_class.getD "") true = .ok (true, mr))
    (hrec : recompute_deltaf_from_proof bundle.promotion_proof = .ok d)
    (hok : ¬ |d - bundle.promotion_proof.deltaF.getD 0| > tol) :
    evaluate_promotion_bundle bundle tol = .ok
      { status :=
          if sorted_missing_constraints bundle.promotion_request.policy_thresholds.required_constraints
              bundle.promotion_proof.constraints_satisfied ≠ [] then "VETO_POLICY"
          else if d < bundle.promotion_request.policy_thresholds.deltaF_threshold.getD 0 then
            "REFUSE_UNCERTAIN"
          else "PASS",
        reasons :=
          (fun r2 => if r2 = ([] : List String) then ["OK"] else r2)
            (if sorted_missing_constraints bundle.promotion_request.policy_thresholds.required_constraints
                bundle.promotion_proof.constraints_satisfied ≠ [] then
              (if d < bundle.promotion_request.policy_thresholds.deltaF_threshold.getD 0 then
                ["DELTAF_BELOW_THRESHOLD"] else []) ++ ["MISSING_REQUIRED_CONSTRAINTS"]
            else
              (if d < bundle.promotion_request.policy_thresholds.deltaF_threshold.getD 0 then
                ["DELTAF_BELOW_THRESHOLD"] else [])),
        recomputed_deltaF := some d,
        threshold_deltaF := some (bundle.promotion_request.policy_thresholds.deltaF_threshold.getD 0),
        missing_constraints := some (sorted_missing_constraints
          bundle.promotion_request.policy_thresholds.required_constraints
          bundle.promotion_proof.constraints_satisfied) } := by
  unfold evaluate_promotion_bundle
  rw [if_neg (by simp [hid]), hmono]
  simp only [hrec, not_true, if_false]
  rw [if_neg hok]

/-- **C1**: whenever the identity check and the one-step monotonicity check
pass and the Delta-F recomputation succeeds, a gap between the recomputed
and the claimed `deltaF` larger than `numeric_tolerance` makes
`evaluate_promotion_bundle` return status `VETO_POLICY` with reasons
containing `DELTAF_MISMATCH`, the report carrying both the recomputed and
the claimed value. -/
theorem spec_c1_deltaf_mismatch_veto (bundle : PromotionBundle) (tol d : ℝ) (mr : String)
    (hid : bundle.promotion_request.request_id = bundle.promotion_proof.promotion_request_id)
    (hmono : validate_monotonic_transition (bundle.promotion_request.from_class.getD "")
      (bundle.promotion_request.to_class.getD "") true = .ok (true, mr))
    (hrec : recompute_deltaf_from_proof bundle.promotion_proof = .ok d)
    (hgap : |d - bundle.promotion_proof.deltaF.getD 0| > tol) :
    ∃ r : EvalReport, evaluate_promotion_bundle bundle tol = .ok r ∧
      r.status = "VETO_POLICY" ∧ "DELTAF_MISMATCH" ∈ r.reasons ∧
      r.recomputed_deltaF = some d ∧
      r.claimed_deltaF = some (bundle.promotion_proof.deltaF.getD 0) := by
  refine ⟨{ status := "VETO_POLICY", reasons := ["DELTAF_MISMATCH"],
            recomputed_deltaF := some d,
            claimed_deltaF := some (bundle.promotion_proof.deltaF.getD 0) },
          ?_, rfl, by simp, rfl, rfl⟩
  unfold evaluate_promotion_bundle
  rw [if_neg (by simp [hid]), hmono]
  simp only [hrec, not_true, if_false]
  rw [if_pos hgap]

/-- Witness for C1: a concrete bundle claiming `deltaF = 0` (absent key)
while the recomputed value is `1/2` is vetoed with `DELTAF_MISMATCH`. -/
theorem spec_c1_deltaf_mismatch_veto_witness :
    ∃ r : EvalReport,
      evaluate_promotion_bundle
        { promotion_request := { request_id := some "req-1", from_class := some "E0_SPECULATIVE",
                                 to_class := some "E1_STRUCTURAL" },
          promotion_proof := { promotion_request_id := some "req-1",
                               method := some "entropy_surrogate",
                               prior_summary := { entropy_nats := some 2 },
                               posterior_summary := { entropy_nats := some 1 } } }
        (1 / 1000000000000) = .ok r ∧
      r.status = "VETO_POLICY" ∧ "DELTAF_MISMATCH" ∈ r.reasons ∧
      r.recomputed_deltaF = some (1 / 2 : ℝ) ∧ r.claimed_deltaF = some 0 := by
  have h := spec_c1_deltaf_mismatch_veto
    { promotion_request := { request_id := some "req-1", from_class := some "E0_SPECULATIVE",
                             to_class := some "E1_STRUCTURAL" },
      promotion_proof := { promotion_request_id := some "req-1",
                           method := some "entropy_surrogate",
                           prior_summary := { entropy_nats := some 2 },
                           posterior_summary := { entropy_nats := some 1 } } }
    (1 / 1000000000000) (1 / 2) "OK" rfl (by decide)
    (by simp [recompute_deltaf_from_proof, deltaf_entropy_from_nats]; norm_num)
    (by
      simp only [Option.getD_none, sub_zero]
      rw [abs_of_pos (by norm_num : (0:ℝ) < 1/2)]
      norm_num)
  obtain ⟨r, h1, h2, h3, h4, h5⟩ := h
  exact ⟨r, h1, h2, h3, h4, h5⟩

/-- **C3**: for a bundle passing the identity, monotonicity, recomputation
and numeric-equality checks, a recomputed Delta-F below the policy
threshold makes the status `REFUSE_UNCERTAIN` with reason
`DELTAF_BELOW_THRESHOLD` and evaluation continues; if additionally
`required_constraints − constraints_satisfied` is non-empty, the final
status is `VETO_POLICY` with `MISSING_REQUIRED_CONSTRAINTS`, both reason
codes present in the report. -/
theorem spec_c3_threshold_then_constraint_veto (bundle : PromotionBundle) (tol d : ℝ)
    (mr : String)
    (hid : bundle.promotion_request.request_id = bundle.promotion_proof.promotion_request_id)
    (hmono : validate_monotonic_transition (bundle.promotion_request.from_class.getD "")
      (bundle.promotion_request.to_class.getD "") true = .ok (true, mr))
    (hrec : recompute_deltaf_from_proof bundle.promotion_proof = .ok d)
    (hok : ¬ |d - bundle.promotion_proof.deltaF.getD 0| > tol)
    (hbelow : d < bundle.promotion_request.policy_thresholds.deltaF_threshold.getD 0) :
    (sorted_missing_constraints bundle.promotion_request.policy_thresholds.required_constraints
        bundle.promotion_proof.constraints_satisfied = [] →
      evaluate_promotion_bundle bundle tol = .ok
        { status := "REFUSE_UNCERTAIN", reasons := ["DELTAF_BELOW_THRESHOLD"],
          recomputed_deltaF := some d,
          threshold_deltaF := some (bundle.promotion_request.policy_thresholds.deltaF_threshold.getD 0),
          missing_constraints := some [] }) ∧
    (sorted_missing_constraints bundle.promotion_request.policy_thresholds.required_constraints
        bundle.promotion_proof.constraints_satisfied ≠ [] →
      ∃ r : EvalReport, evaluate_promotion_bundle bundle tol = .ok r ∧
        r.status = "VETO_POLICY" ∧
        "MISSING_REQUIRED_CONSTRAINTS" ∈ r.reasons ∧
        "DELTAF_BELOW_THRESHOLD" ∈ r.reasons) := by
  have heval := evaluate_promotion_bundle_final bundle tol d mr hid hmono hrec hok
  constructor
  · intro hnil
    rw [heval, hnil]
    simp [hbelow]
  · intro hne
    refine ⟨_, heval, ?_, ?_, ?_⟩ <;> simp [hne, hbelow]

/-- Witness for C3: a bundle with recomputed Delta-F `1/2` below threshold
`1` and an unsatisfied required constraint is vetoed carrying both reason
codes. -/
theorem spec_c3_threshold_then_constraint_veto_witness :
    ∃ r : EvalReport,
      evaluate_promotion_bundle
        { promotion_request := { request_id := some "req-2", from_class := some "E1_STRUCTURAL",
                                 to_class := some "E2_INFORMATIONAL",
                                 policy_thresholds := { deltaF_threshold := some 1,
                                                        required_constraints := ["audit"] } },
          promotion_proof := { promotion_request_id := some "req-2",
                               method := some "gaussian_transfer",
                               prior_summary := { entropy_nats := some 2 },
                               posterior_summary := { entropy_nats := some 1 },
                               deltaF := some (1 / 2) } }
        (1 / 1000000000000) = .ok r ∧
      r.status = "VETO_POLICY" ∧
      "MISSING_REQUIRED_CONSTRAINTS" ∈ r.reasons ∧
      "DELTAF_BELOW_THRESHOLD" ∈ r.reasons := by
  have h := spec_c3_threshold_then_constraint_veto
    { promotion_request := { request_id := some "req-2", from_class := some "E1_STRUCTURAL",
                             to_class := some "E2_INFORMATIONAL",
                             policy_thresholds := { deltaF_threshold := some 1,
                                                    required_constraints := ["audit"] } },
      promotion_proof := { promotion_request_id := some "req-2",
                           method := some "gaussian_transfer",
                           prior_summary := { entropy_nats := some 2 },
                           posterior_summary := { entropy_nats := some 1 },
                           deltaF := some (1 / 2) } }
    (1 / 1000000000000) (1 / 2) "OK" rfl (by decide)
    (by simp [recompute_deltaf_from_proof, deltaf_entropy_from_nats]; norm_num)
    (by simp)
    (by simp; norm_num)
  exact h.2 (by decide)

/-- **C4 counterexample**: a bundle failing the identity check is vetoed by
an early exit — the returned report does *not* carry the later checks'
diagnostic fields (`recomputed_deltaF`, `threshold_deltaF`,
`missing_constraints` are all absent), contradicting the claim that later
checks still run after any veto. -/
theorem spec_c4_counterexample :
    ∃ r : EvalReport,
      evaluate_promotion_bundle
        { promotion_request := { request_id := some "req-A" },
          promotion_proof := { promotion_request_id := some "req-B" } } 0 = .ok r ∧
      r.status = "VETO_POLICY" ∧ r.recomputed_deltaF = none ∧
      r.threshold_deltaF = none ∧ r.missing_constraints = none :=
  ⟨{ status := "VETO_POLICY", reasons := ["REQUEST_PROOF_ID_MISMATCH"] },
    rfl, rfl, rfl, rfl, rfl⟩

/-- **C4 (amended)**: checks 1-4 of `evaluate_promotion_bundle` are
terminal early exits, so a veto raised there returns a report without the
later diagnostic fields; only once checks 1-4 pass do the threshold and
constraint checks both run, and then the report always carries
`recomputed_deltaF`, `threshold_deltaF` and `missing_constraints`, with a
constraint veto making the final status `VETO_POLICY` (which no later step
improves). -/
theorem spec_c4_diagnostics_after_gate_checks (bundle : PromotionBundle) (tol d : ℝ)
    (mr : String)
    (hid : bundle.promotion_request.request_id = bundle.promotion_proof.promotion_request_id)
    (hmono : validate_monotonic_transition (bundle.promotion_request.from_class.getD "")
      (bundle.promotion_request.to_class.getD "") true = .ok (true, mr))
    (hrec : recompute_deltaf_from_proof bundle.promotion_proof = .ok d)
    (hok : ¬ |d - bundle.promotion_proof.deltaF.getD 0| > tol) :
    ∃ r : EvalReport, evaluate_promotion_bundle bundle tol = .ok r ∧
      r.recomputed_deltaF = some d ∧
      r.threshold_deltaF = some (bundle.promotion_request.policy_thresholds.deltaF_threshold.getD 0) ∧
      r.missing_constraints = some (sorted_missing_constraints
        bundle.promotion_request.policy_thresholds.required_constraints
        bundle.promotion_proof.constraints_satisfied) ∧
      (sorted_missing_constraints bundle.promotion_request.policy_thresholds.required_constraints
        bundle.promotion_proof.constraints_satisfied ≠ [] → r.status = "VETO_POLICY") := by
  refine ⟨_, evaluate_promotion_bundle_final bundle tol d mr hid hmono hrec hok,
    rfl, rfl, rfl, fun hne => ?_⟩
  simp [hne]

/-- Witness for the amended C4: a bundle passing checks 1-4 with a missing
required constraint yields a report with all diagnostic fields and final
status `VETO_POLICY`. -/
theorem spec_c4_diagnostics_after_gate_checks_witness :
    ∃ r : EvalReport,
      evaluate_promotion_bundle
        { promotion_request := { request_id := some "req-3", from_class := some "E2_INFORMATIONAL",
                                 to_class := some "E3_CAUSAL",
                                 policy_thresholds := { deltaF_threshold := some 1,
                                                        required_constraints := ["review"] } },
          promotion_proof := { promotion_request_id := some "req-3",
                               method := some "entropy_surrogate",
                               prior_summary := { entropy_nats := some 2 },
                               posterior_summary := { entropy_nats := some 1 },
                               deltaF := some (1 / 2) } }
        (1 / 1000000000000) = .ok r ∧
      r.recomputed_deltaF = some (1 / 2 : ℝ) ∧
      r.threshold_deltaF = some 1 ∧
      r.missing_constraints = some ["review"] ∧
      r.status = "VETO_POLICY" := by
  have h := spec_c4_diagnostics_after_gate_checks
    { promotion_request := { request_id := some "req-3", from_class := some "E2_INFORMATIONAL",
                             to_class := some "E3_CAUSAL",
                             policy_thresholds := { deltaF_threshold := some 1,
                                                    required_constraints := ["review"] } },
      promotion_proof := { promotion_request_id := some "req-3",
                           method := some "entropy_surrogate",
                           prior_summary := { entropy_nats := some 2 },
                           posterior_summary := { entropy_nats := some 1 },
                           deltaF := some (1 / 2) } }
    (1 / 1000000000000) (1 / 2) "OK" rfl (by decide)
    (by simp [recompute_deltaf_from_proof, deltaf_entropy_from_nats]; norm_num)
    (by simp)
  obtain ⟨r, h1, h2, h3, h4, h5⟩ := h
  exact ⟨r, h1, h2, h3, by simpa using h4, h5 (by decide)⟩

/-- **C7 counterexample**: a proof of method `entropy_surrogate` supplying
raw covariance matrices in its summaries instead of precomputed
`entropy_nats` makes `recompute_deltaf_from_proof` *fail* with an error —
the log-determinant path (`deltaf_entropy_surrogate`) is never dispatched,
contradicting the claim that it is supported as an alternative. -/
theorem spec_c7_counterexample :
    recompute_deltaf_from_proof
      { method := some "entropy_surrogate",
        prior_summary := { cov := some [[4]] },
        posterior_summary := { cov := some [[1]] } }
      = .error "entropy method requires entropy_nats in summaries" := rfl

/-- **C7 (amended)**: for a proof of method `entropy_surrogate` or
`gaussian_transfer`, when both summaries carry a scalar `entropy_nats` the
recomputation returns `1 - posterior/prior` (and `0` when the prior is
`0`); when either summary lacks `entropy_nats` — e.g. because raw
covariance matrices were supplied instead — the recomputation fails with
`entropy method requires entropy_nats in summaries` rather than falling
back to the log-determinant helper. -/
theorem spec_c7_entropy_requires_nats (proof : PromotionProof) (a b : ℝ)
    (hm : proof.method = some "entropy_surrogate" ∨ proof.method = some "gaussian_transfer") :
    (proof.prior_summary.entropy_nats = some a →
      proof.posterior_summary.entropy_nats = some b →
      recompute_deltaf_from_proof proof = .ok (if a = 0 then 0 else 1 - b / a)) ∧
    (proof.prior_summary.entropy_nats = none ∨ proof.posterior_summary.entropy_nats = none →
      recompute_deltaf_from_proof proof
        = .error "entropy method requires entropy_nats in summaries") := by
  have hnotrank : ¬ proof.method = some "rank_surrogate" := by
    rcases hm with h | h <;> simp [h]
  constructor
  · intro hpa hpb
    unfold recompute_deltaf_from_proof
    rw [if_neg hnotrank, if_pos hm, hpa, hpb]
    rfl
  · intro hnone
    unfold recompute_deltaf_from_proof
    rw [if_neg hnotrank, if_pos hm]
    rcases hnone with h | h
    · rw [h]
    · rw [h]; cases proof.prior_summary.entropy_nats <;> rfl

/-- Witness for the amended C7: entropy summaries `2` and `1` nats under
`gaussian_transfer` recompute to `1/2`. -/
theorem spec_c7_entropy_requires_nats_witness :
    recompute_deltaf_from_proof
      { method := some "gaussian_transfer",
        prior_summary := { entropy_nats := some 2 },
        posterior_summary := { entropy_nats := some 1 } } = .ok (1 / 2 : ℝ) := by
  have h := (spec_c7_entropy_requires_nats
    { method := some "gaussian_transfer",
      prior_summary := { entropy_nats := some 2 },
      posterior_summary := { entropy_nats := some 1 } } 2 1 (Or.inr rfl)).1 rfl rfl
  rw [h]
  norm_num

namespace ECM

/-- Python `d.get(key)` on a JSON value: `none` when the value is not an
object or lacks the key (first occurrence wins; dicts have unique keys). -/
def jget (j : Json) (key : String) : Option Json :=
  match j with
  | .obj kvs => (kvs.find? (fun p => p.1 = key)).map Prod.snd
  | _ => none

/-- Python dict assignment `d[key] = v`: replace the value in place when
the key is present (keeping its position), else append the new entry at the
end (dict insertion order). -/
def jsonSet (j : Json) (key : String) (v : Json) : Json :=
  match j with
  | .obj kvs =>
    if kvs.any (fun p => p.1 = key) then
      .obj (kvs.map (fun p => if p.1 = key then (p.1, v) else p))
    else
      .obj (kvs ++ [(key, v)])
  | other => other

/-- `attach_signature_ed25519` from `ecm_reference.py`: deep-copy the
proof, sign the canonical signature-free payload, and append one
`{key_id, algo, signature_b64}` entry to the `signatures` list
(`setdefault` creates the list when absent).  The Ed25519 signing
primitive (`sign_payload_ed25519`) is host cryptography, passed as the
parameter `sign`; a non-dict proof or a non-list `signatures` value makes
the Python crash, modelled as `none`. -/
def attach_signature_ed25519 (sign : String → String → String)
    (proof : Json) (key_id : String) (private_key : String) : Option Json :=
  match proof with
  | .obj kvs =>
    let payload := proof_payload_for_signing (.obj kvs)
    let sig_b64 := sign payload private_key
    let entry : Json := .obj [("key_id", .str key_id), ("algo", .str "Ed25519"),
                              ("signature_b64", .str sig_b64)]
    match jget (.obj kvs) "signatures" with
    | none => some (jsonSet (.obj kvs) "signatures" (.arr [entry]))
    | some (.arr sigs) => some (jsonSet (.obj kvs) "signatures" (.arr (sigs ++ [entry])))
    | some _ => none
  | _ => none

/-- One signature entry of a proof's `signatures` list (`Option` fields
record dict-key presence). -/
structure SigEntry where
  key_id : Option String := none
  algo : Option String := none
  signature_b64 : Option String := none

/-- One entry of the key manifest's `keys` list. -/
structure KeyEntry where
  key_id : Option String := none
  algo : Option String := none
  public_key_b64 : Option String := none

/-- The key manifest: `key_manifest.get("keys", [])`. -/
structure KeyManifest where
  keys : List KeyEntry := []

/-- The report returned by `verify_bundle_signatures`. -/
structure SignatureReport where
  checked : Nat
  valid : Nat
  all_valid : Bool
  errors : List String

/-- `f"{key_id}"` where `key_id` may be Python `None`. -/
def keyIdRepr : Option String → String
  | some s => s
  | none => "None"

/-- Python `str.lower()` (ASCII case folding, as applies to algorithm
names). -/
def str_lower (s : String) : String := String.mk (s.data.map Char.toLower)

/-- The `keys_by_id` dict lookup: items carrying a `key_id`, later items
overriding earlier ones with the same id. -/
def keys_by_id_lookup (keys : List KeyEntry) (k : String) : Option KeyEntry :=
  (keys.filter (fun item => item.key_id = some k)).getLast?

/-- The body of the per-signature loop of `verify_bundle_signatures`:
`none` when the signature verifies, `some errcode` when it fails (each
failing path appends exactly one error and continues).  Ed25519
verification and base64 decoding are host cryptography, passed as the
parameters `verify` and `b64decode`. -/
def check_signature (verify : String → String → String → Bool)
    (b64decode : String → Option String) (payload : String)
    (keys : List KeyEntry) (sig : SigEntry) : Option String :=
  let key_id := sig.key_id
  let algo := str_lower (sig.algo.getD "")
  let sig_b64 := sig.signature_b64.getD ""
  let found := match key_id with
    | some k => keys_by_id_lookup keys k
    | none => none
  match found with
  | none => some ("UNKNOWN_KEY_ID:" ++ keyIdRepr key_id)
  | some key_item =>
    let key_algo := str_lower (key_item.algo.getD "")
    if algo ≠ key_algo then some ("ALGO_MISMATCH:" ++ keyIdRepr key_id)
    else if algo ≠ "ed25519" then some ("UNSUPPORTED_ALGO:" ++ algo)
    else
      match b64decode (key_item.public_key_b64.getD "") with
      | none => some ("BAD_PUBLIC_KEY_B64:" ++ keyIdRepr key_id)
      | some public_key_bytes =>
        if verify payload sig_b64 public_key_bytes then none
        else some ("INVALID_SIGNATURE:" ++ keyIdRepr key_id)

/-- `proof.get("signatures", [])` as a list of JSON entries (`[]` when the
key is absent; the code assumes a list when present). -/
def attached_signatures (proof : Json) : List Json :=
  match jget proof "signatures" with
  | some (.arr xs) => xs
  | _ => []

/-- View of one JSON signature entry through the keys the loop reads
(string-valued per the bundle schema). -/
def sigEntryOfJson (j : Json) : SigEntry :=
  { key_id := match jget j "key_id" with | some (.str s) => some s | _ => none,
    algo := match jget j "algo" with | some (.str s) => some s | _ => none,
    signature_b64 := match jget j "signature_b64" with | some (.str s) => some s | _ => none }

/-- `verify_bundle_signatures` from `ecm_reference.py`: canonicalize the
proof with `signatures` excluded, then check every attached signature
against the manifest, accumulating counts and per-signature errors. -/
def verify_bundle_signatures (verify : String → String → String → Bool)
    (b64decode : String → Option String) (bundle : Json)
    (key_manifest : KeyManifest) : SignatureReport :=
  let proof := (jget bundle "promotion_proof").getD (.obj [])
  let signatures := (attached_signatures proof).map sigEntryOfJson
  let payload := proof_payload_for_signing proof
  let result := signatures.foldl
    (fun (st : Nat × Nat × List String) sig =>
      match check_signature verify b64decode payload key_manifest.keys sig with
      | none => (st.1 + 1, st.2.1 + 1, st.2.2)
      | some err => (st.1 + 1, st.2.1, st.2.2 ++ [err]))
    (0, 0, [])
  { checked := result.1, valid := result.2.1,
    all_valid := decide (result.1 > 0 ∧ result.2.1 = result.1),
    errors := result.2.2 }

end ECM

/-- Characterization of the accumulator loop of `verify_bundle_signatures`:
every signature is processed (no abort), each verified one increments
`valid`, each failing one appends exactly its one error code. -/
theorem verify_fold_eq (check : SigEntry → Option String) :
    ∀ (sigs : List SigEntry) (c v : Nat) (es : List String),
      sigs.foldl
        (fun (st : Nat × Nat × List String) sig =>
          match check sig with
          | none => (st.1 + 1, st.2.1 + 1, st.2.2)
          | some err => (st.1 + 1, st.2.1, st.2.2 ++ [err]))
        (c, v, es)
      = (c + sigs.length,
         v + (sigs.filter (fun s => (check s).isNone)).length,
         es ++ sigs.filterMap check) := by
  intro sigs
  induction sigs with
  | nil => intro c v es; simp
  | cons s sigs ih =>
    intro c v es
    simp only [List.foldl_cons]
    cases hc : check s with
    | none =>
      rw [ih]
      simp [hc, List.filter_cons, List.filterMap_cons, Nat.add_assoc, Nat.add_comm,
        Nat.add_left_comm]
    | some e =>
      rw [ih]
      simp [hc, List.filter_cons, List.filterMap_cons, List.append_assoc, Nat.add_assoc,
        Nat.add_comm, Nat.add_left_comm]

/-- The verified and failing signatures partition the checked ones. -/
theorem filter_isNone_add_filterMap_length (check : SigEntry → Option String)
    (sigs : List SigEntry) :
    (sigs.filter (fun s => (check s).isNone)).length + (sigs.filterMap check).length
      = sigs.length := by
  induction sigs with
  | nil => rfl
  | cons s sigs ih => cases hc : check s <;> simp [List.filter_cons, List.filterMap_cons, hc] <;> omega

/-- **C2**: `verify_bundle_signatures` checks every attached signature (a
failure never aborts the remaining ones and appends exactly one error
code), returns `checked` equal to the number of attached signatures,
`valid` equal to the number of signatures whose per-signature check
verified, `valid` plus the number of error codes equal to `checked`, and
`all_valid` true iff `checked > 0` and `valid = checked`; in particular a
proof with zero signatures yields `all_valid = false`. -/
theorem spec_c2_signature_report (verify : String → String → String → Bool)
    (b64decode : String → Option String) (bundle : Json) (key_manifest : KeyManifest) :
    (verify_bundle_signatures verify b64decode bundle key_manifest).checked
      = (attached_signatures ((jget bundle "promotion_proof").getD (.obj []))).length ∧
    (verify_bundle_signatures verify b64decode bundle key_manifest).valid
      = (((attached_signatures ((jget bundle "promotion_proof").getD (.obj []))).map
          sigEntryOfJson).filter
          (fun s => (check_signature verify b64decode
            (proof_payload_for_signing ((jget bundle "promotion_proof").getD (.obj [])))
            key_manifest.keys s).isNone)).length ∧
    (verify_bundle_signatures verify b64decode bundle key_manifest).valid
      + (verify_bundle_signatures verify b64decode bundle key_manifest).errors.length
      = (verify_bundle_signatures verify b64decode bundle key_manifest).checked ∧
    ((verify_bundle_signatures verify b64decode bundle key_manifest).all_valid = true ↔
      0 < (verify_bundle_signatures verify b64decode bundle key_manifest).checked ∧
      (verify_bundle_signatures verify b64decode bundle key_manifest).valid
        = (verify_bundle_signatures verify b64decode bundle key_manifest).checked) ∧
    (attached_signatures ((jget bundle "promotion_proof").getD (.obj [])) = [] →
      (verify_bundle_signatures verify b64decode bundle key_manifest).all_valid = false) := by
  simp only [verify_bundle_signatures, verify_fold_eq]
  refine ⟨by simp, by simp, ?_, by simp, fun hnil => by simp [hnil]⟩
  have h := filter_isNone_add_filterMap_length
    (check_signature verify b64decode
      (proof_payload_for_signing ((jget bundle "promotion_proof").getD (.obj [])))
      key_manifest.keys)
    ((attached_signatures ((jget bundle "promotion_proof").getD (.obj []))).map sigEntryOfJson)
  simp only [List.length_map] at h
  simp only [Nat.zero_add, List.nil_append, List.length_map]
  omega

/-- Witness for C2: a proof with zero signatures yields `checked = 0` and
`all_valid = false` (not vacuously valid). -/
theorem spec_c2_signature_report_witness :
    (verify_bundle_signatures (fun _ _ _ => true) (fun _ => some "")
      (.obj [("promotion_proof", .obj [("deltaF", .num 1)])]) { keys := [] }).checked = 0 ∧
    (verify_bundle_signatures (fun _ _ _ => true) (fun _ => some "")
      (.obj [("promotion_proof", .obj [("deltaF", .num 1)])]) { keys := [] }).all_valid = false := by
  have h := spec_c2_signature_report (fun _ _ _ => true) (fun _ => some "")
    (.obj [("promotion_proof", .obj [("deltaF", .num 1)])]) { keys := [] }
  exact ⟨h.1.trans (by rfl), h.2.2.2.2 (by rfl)⟩

/-- Replacing the value at one key leaves lookups of every other key
unchanged. -/
theorem find?_key_map_replace (kvs : List (String × Json)) (key k : String) (v : Json)
    (hne : k ≠ key) :
    ((kvs.map (fun p => if p.1 = key then (p.1, v) else p)).find? (fun p => p.1 = k))
      = kvs.find? (fun p => p.1 = k) := by
  induction kvs with
  | nil => rfl
  | cons p kvs ih =>
    simp only [List.map_cons]
    by_cases hp : p.1 = key
    · have hpk : ¬ (p.1 = k) := by rw [hp]; exact fun h => hne h.symm
      rw [if_pos hp, List.find?_cons_of_neg _ (by simp [hpk]),
        List.find?_cons_of_neg _ (by simp [hpk])]
      exact ih
    · rw [if_neg hp]
      by_cases hk : p.1 = k
      · rw [List.find?_cons_of_pos _ (by simp [hk]), List.find?_cons_of_pos _ (by simp [hk])]
      · rw [List.find?_cons_of_neg _ (by simp [hk]), List.find?_cons_of_neg _ (by simp [hk])]
        exact ih

/-- Replacing the value at one key makes lookups of that key return the new
value (attached to the first matching entry). -/
theorem find?_key_map_replace_self (kvs : List (String × Json)) (key : String) (v : Json) :
    ((kvs.map (fun p => if p.1 = key then (p.1, v) else p)).find? (fun p => p.1 = key))
      = (kvs.find? (fun p => p.1 = key)).map (fun p => (p.1, v)) := by
  induction kvs with
  | nil => rfl
  | cons p kvs ih =>
    simp only [List.map_cons]
    by_cases hp : p.1 = key
    · rw [if_pos hp, List.find?_cons_of_pos _ (by simp [hp]),
        List.find?_cons_of_pos _ (by simp [hp])]
      simp
    · rw [if_neg hp, List.find?_cons_of_neg _ (by simp [hp]),
        List.find?_cons_of_neg _ (by simp [hp])]
      exact ih

/-- **C9**: `attach_signature_ed25519` is a pure builder — it returns a
proof equal to the input on every field other than `signatures` (the input
itself, being deep-copied, is untouched), with the `signatures` list
extended by exactly one new `{key_id, algo, signature_b64}` entry signing
the canonical payload of the input. -/
theorem spec_c9_attach_append_only (sign : String → String → String)
    (kvs : List (String × Json)) (sigs : List Json) (key_id private_key : String)
    (hs : (jget (.obj kvs) "signatures" = none ∧ sigs = []) ∨
          jget (.obj kvs) "signatures" = some (.arr sigs)) :
    ∃ out : Json,
      attach_signature_ed25519 sign (.obj kvs) key_id private_key = some out ∧
      (∀ k : String, k ≠ "signatures" → jget out k = jget (.obj kvs) k) ∧
      jget out "signatures" = some (.arr (sigs ++
        [.obj [("key_id", .str key_id), ("algo", .str "Ed25519"),
               ("signature_b64",
                .str (sign (proof_payload_for_signing (.obj kvs)) private_key))]])) := by
  rcases hs with ⟨habs, hnil⟩ | hpres
  · subst hnil
    have hfind : kvs.find? (fun p => p.1 = "signatures") = none := by
      simpa [jget] using habs
    have hany : kvs.any (fun p => decide (p.1 = "signatures")) = false := by
      rw [List.any_eq_false]
      intro p hp
      have := List.find?_eq_none.mp hfind p hp
      simpa using this
    refine ⟨.obj (kvs ++ [("signatures", .arr [.obj [("key_id", .str key_id),
        ("algo", .str "Ed25519"),
        ("signature_b64", .str (sign (proof_payload_for_signing (.obj kvs)) private_key))]])]),
      ?_, ?_, ?_⟩
    · simp only [attach_signature_ed25519, habs, jsonSet, hany]
      rfl
    · intro k hk
      have hne2 : ¬ ("signatures" = k) := fun h => hk h.symm
      simp only [jget]
      rw [List.find?_append]
      cases hf : kvs.find? (fun p => decide (p.1 = k)) with
      | some a => rfl
      | none => simp [List.find?_cons, hne2]
    · simp only [jget]
      rw [List.find?_append, hfind]
      simp [List.find?_cons]
  · have hj : (kvs.find? (fun p => p.1 = "signatures")).map Prod.snd
        = some (.arr sigs) := by
      simpa [jget] using hpres
    have hfind : ∃ p₀, kvs.find? (fun p => p.1 = "signatures") = some p₀ ∧
        p₀.2 = .arr sigs := by
      cases hf : kvs.find? (fun p => decide (p.1 = "signatures")) with
      | none => rw [hf] at hj; cases hj
      | some p₀ =>
        rw [hf] at hj
        exact ⟨p₀, rfl, by simpa using hj⟩
    obtain ⟨p₀, hf, hv⟩ := hfind
    have hmem := List.mem_of_find?_eq_some hf
    have hpred : p₀.1 = "signatures" := by simpa using List.find?_some hf
    have hany : kvs.any (fun p => decide (p.1 = "signatures")) = true := by
      rw [List.any_eq_true]
      exact ⟨p₀, hmem, by simpa using hpred⟩
    refine ⟨.obj (kvs.map (fun p => if p.1 = "signatures" then
        (p.1, Json.arr (sigs ++ [.obj [("key_id", .str key_id), ("algo", .str "Ed25519"),
          ("signature_b64",
           .str (sign (proof_payload_for_signing (.obj kvs)) private_key))]])) else p)),
      ?_, ?_, ?_⟩
    · simp only [attach_signature_ed25519, hpres, jsonSet, hany]
      rfl
    · intro k hk
      simp only [jget]
      rw [find?_key_map_replace _ _ _ _ hk]
    · simp only [jget]
      rw [find?_key_map_replace_self, hf]
      rfl

/-- Witness for C9: attaching a signature to a proof without a `signatures`
key leaves `deltaF` unchanged and creates a one-element signature list. -/
theorem spec_c9_attach_append_only_witness :
    ∃ out : Json,
      attach_signature_ed25519 (fun _ _ => "SIG") (.obj [("deltaF", .num 1)])
        "test-key-01" "priv" = some out ∧
      jget out "deltaF" = some (.num 1) ∧
      jget out "signatures" = some (.arr
        [.obj [("key_id", .str "test-key-01"), ("algo", .str "Ed25519"),
               ("signature_b64", .str "SIG")]]) := by
  obtain ⟨out, h1, h2, h3⟩ := spec_c9_attach_append_only (fun _ _ => "SIG")
    [("deltaF", .num 1)] [] "test-key-01" "priv" (Or.inl ⟨rfl, rfl⟩)
  exact ⟨out, h1, (h2 "deltaF" (by decide)).trans rfl, h3⟩

/-- A proof with exactly one attached signature produces the report of that
single signature check. -/
theorem verify_one_sig (verify : String → String → String → Bool)
    (b64decode : String → Option String) (proof sig : Json) (km : KeyManifest)
    (hsig : attached_signatures proof = [sig]) :
    verify_bundle_signatures verify b64decode (.obj [("promotion_proof", proof)]) km
      = (match check_signature verify b64decode (proof_payload_for_signing proof) km.keys
            (sigEntryOfJson sig) with
         | none => { checked := 1, valid := 1, all_valid := true, errors := [] }
         | some err => { checked := 1, valid := 0, all_valid := false, errors := [err] }) := by
  simp only [verify_bundle_signatures]
  have hpt : (jget (Json.obj [("promotion_proof", proof)]) "promotion_proof").getD (.obj [])
      = proof := rfl
  rw [hpt, hsig]
  cases hc : check_signature verify b64decode (proof_payload_for_signing proof) km.keys
      (sigEntryOfJson sig) with
  | none => simp [hc]
  | some err => simp [hc]

/-- **C10**: the declared algorithm of a signature and the manifest entry's
algorithm are both lowercased before comparison, so a signature declaring
`ED25519` against a manifest entry declaring `Ed25519` raises neither
`ALGO_MISMATCH` nor `UNSUPPORTED_ALGO` and proceeds to Ed25519 signature
verification. -/
theorem spec_c10_algo_case_insensitive (verify : String → String → String → Bool)
    (b64decode : String → Option String) (proofJson : Json) (pk pkb sb : String)
    (hsig : jget proofJson "signatures"
      = some (.arr [.obj [("key_id", .str "k1"), ("algo", .str "ED25519"),
                          ("signature_b64", .str sb)]]))
    (hdec : b64decode pk = some pkb) :
    verify_bundle_signatures verify b64decode (.obj [("promotion_proof", proofJson)])
      { keys := [{ key_id := some "k1", algo := some "Ed25519", public_key_b64 := some pk }] }
      = { checked := 1,
          valid := if verify (proof_payload_for_signing proofJson) sb pkb then 1 else 0,
          all_valid := verify (proof_payload_for_signing proofJson) sb pkb,
          errors := if verify (proof_payload_for_signing proofJson) sb pkb then []
                    else ["INVALID_SIGNATURE:k1"] } := by
  rw [verify_one_sig verify b64decode proofJson
    (.obj [("key_id", .str "k1"), ("algo", .str "ED25519"), ("signature_b64", .str sb)])
    { keys := [{ key_id := some "k1", algo := some "Ed25519", public_key_b64 := some pk }] }
    (by simp only [attached_signatures, hsig])]
  have hsig2 : sigEntryOfJson (.obj [("key_id", .str "k1"), ("algo", .str "ED25519"),
      ("signature_b64", .str sb)])
      = { key_id := some "k1", algo := some "ED25519", signature_b64 := some sb } := rfl
  rw [hsig2]
  have hfound : keys_by_id_lookup
      [{ key_id := some "k1", algo := some "Ed25519", public_key_b64 := some pk }] "k1"
      = some { key_id := some "k1", algo := some "Ed25519", public_key_b64 := some pk } := rfl
  have ht1 : str_lower "ED25519" = "ed25519" := rfl
  have ht2 : str_lower "Ed25519" = "ed25519" := rfl
  simp only [check_signature, hfound, Option.getD_some, ht1, ht2, hdec, keyIdRepr]
  by_cases hv : verify (proof_payload_for_signing proofJson) sb pkb
  · simp [hv]
  · simp [hv]

/-- Witness for C10: a concrete proof whose only signature declares
`ED25519` verifies cleanly against a manifest entry declaring `Ed25519`
(no `ALGO_MISMATCH`/`UNSUPPORTED_ALGO`), with an always-true verifier. -/
theorem spec_c10_algo_case_insensitive_witness :
    verify_bundle_signatures (fun _ _ _ => true) (fun _ => some "PK")
      (.obj [("promotion_proof",
        .obj [("signatures", .arr [.obj [("key_id", .str "k1"), ("algo", .str "ED25519"),
                                         ("signature_b64", .str "s")]])])])
      { keys := [{ key_id := some "k1", algo := some "Ed25519", public_key_b64 := some "pk64" }] }
      = { checked := 1, valid := 1, all_valid := true, errors := [] } := by
  have h := spec_c10_algo_case_insensitive (fun _ _ _ => true) (fun _ => some "PK")
    (.obj [("signatures", .arr [.obj [("key_id", .str "k1"), ("algo", .str "ED25519"),
                                      ("signature_b64", .str "s")]])])
    "pk64" "PK" "s" rfl rfl
  rw [h]
  simp

namespace ACE

noncomputable section

/-- `AuditResult` dataclass from `ace_governance_stack.py`. -/
structure AuditResult where
  decision : String
  reason : String
  delta : ℝ
  rank : Option Int := none
  required_rank : Option Int := none
  doppler_ok : Option Bool := none

/-- `PromotionDecision` dataclass. -/
structure PromotionDecision where
  allowed : Bool
  reason : String
  required_evidence : Int

/-- `AxiomConvergenceEngine.C_KM_S = 299_792.458`. -/
def C_KM_S : ℝ := 299792458 / 1000

/-- `decision_scalar`: scalar bridge, `0=pass, 1=uncertain, 3=veto`. -/
def decision_scalar (decision : String) : Int :=
  if decision = "ADMISSIBLE" then 0
  else if decision = "REFUSE_UNCERTAIN" then 1
  else 3

/-- `master_admissibility`: `Delta = Phi * Lambda^2` (multiplicative-zero
behavior). -/
def master_admissibility (phi_utility lambda_invariant : ℝ) : ℝ :=
  phi_utility * lambda_invariant ^ 2

/-- `evaluate_existence_promotion`: monotonic `E0 -> E5` promotion with
skepticism scaling.  `ExistenceClass` values are integers in `0..5`; the
range check of the `ExistenceClass(int(...))` conversion lives at the call
site in `structural_audit`. -/
def evaluate_existence_promotion (current_class target_class : Int)
    (new_evidence_count new_constraint_count : Int) (coherence : ℝ) :
    PromotionDecision :=
  if target_class ≠ current_class + 1 then
    { allowed := false, reason := "non_monotonic_promotion", required_evidence := 0 }
  else if new_constraint_count < 1 then
    { allowed := false, reason := "no_new_constraint", required_evidence := 0 }
  else
    let required_evidence : Int :=
      1 + (if coherence ≥ 0.8 then 1 else 0) + (if coherence ≥ 0.95 then 1 else 0)
    if new_evidence_count < required_evidence then
      { allowed := false, reason := "insufficient_evidence",
        required_evidence := required_evidence }
    else
      { allowed := true, reason := "promotable", required_evidence := required_evidence }

/-- The `proposed_action` dict consumed by `structural_audit` (`Option`
fields record dict-key presence; `.get(..., default)` is `Option.getD`). -/
structure ProposedAction where
  velocity_km_s : Option ℝ := none
  is_identifiable : Option Bool := none
  current_existence_class : Option Int := none
  target_existence_class : Option Int := none
  new_evidence_count : Option Int := none
  new_constraint_count : Option Int := none
  coherence : Option ℝ := none
  min_node_evidence_score : Option ℝ := none
  utility : Option ℝ := none
  lambda_val : Option ℝ := none

/-- The precomputed `doppler_check` dict (only `within_threshold` is read). -/
structure DopplerCheck where
  within_threshold : Option Bool := none

/-- The precomputed `node_split_check` dict (only `matrix_is_symmetric` and
`evidence_score` are read). -/
structure NodeSplitCheck where
  matrix_is_symmetric : Option Bool := none
  evidence_score : Option ℝ := none

/-- The multiplicative-admissibility tail of `structural_audit`:
`delta = utility * lambda_val**2`; `delta <= 0` is a terminal `HARD_STOP`
with `delta` reported as `0`, otherwise `ADMISSIBLE` carrying `delta`. -/
def admissibility_tail (action : ProposedAction) (rank required_rank : Option Int)
    (doppler_ok : Option Bool) : Except String AuditResult :=
  let phi := action.utility.getD 0
  let lambda_val := action.lambda_val.getD 0
  let delta := master_admissibility phi lambda_val
  if delta ≤ 0 then
    .ok { decision := "HARD_STOP", reason := "admissibility collapsed to zero",
          delta := 0, rank := rank, required_rank := required_rank,
          doppler_ok := doppler_ok }
  else
    .ok { decision := "ADMISSIBLE", reason := "all active gates passed",
          delta := delta, rank := rank, required_rank := required_rank,
          doppler_ok := doppler_ok }

/-- The optional structural node-split gate of `structural_audit`
(`W4_VETO` on asymmetry, `REFUSE_UNCERTAIN` on weak evidence), falling
through to the admissibility tail. -/
def node_split_gate (action : ProposedAction) (node_split_check : Option NodeSplitCheck)
    (rank required_rank : Option Int) (doppler_ok : Option Bool) :
    Except String AuditResult :=
  match node_split_check with
  | none => admissibility_tail action rank required_rank doppler_ok
  | some n =>
    if n.matrix_is_symmetric.getD false = false then
      .ok { decision := "W4_VETO", reason := "non-symmetric tangential stiffness matrix",
            delta := 0, rank := rank, required_rank := required_rank,
            doppler_ok := doppler_ok }
    else
      let min_node_evidence := action.min_node_evidence_score.getD 0
      let node_evidence := n.evidence_score.getD 0
      if node_evidence < min_node_evidence then
        .ok { decision := "REFUSE_UNCERTAIN",
              reason := "insufficient structural evidence from node-split evaluation",
              delta := 0, rank := rank, required_rank := required_rank,
              doppler_ok := doppler_ok }
      else admissibility_tail action rank required_rank doppler_ok

/-- The optional telemetry-consistency gate of `structural_audit`
(`W3_VETO` when out of threshold), falling through to the node-split gate
with the doppler flag recorded. -/
def doppler_gate (action : ProposedAction) (doppler_check : Option DopplerCheck)
    (node_split_check : Option NodeSplitCheck) (rank required_rank : Option Int) :
    Except String AuditResult :=
  match doppler_check with
  | none => node_split_gate action node_split_check rank required_rank none
  | some d =>
    if d.within_threshold.getD false = false then
      .ok { decision := "W3_VETO",
            reason := "doppler telemetry inconsistent with trajectory model",
            delta := 0, rank := rank, required_rank := required_rank,
            doppler_ok := some false }
    else node_split_gate action node_split_check rank required_rank (some true)

/-- `structural_audit` from `ace_governance_stack.py`: the ordered gate
pipeline W1 -> W2 -> epistemic -> doppler -> node-split -> multiplicative
admissibility (the straight-line tail of the Python function is split at
the gate boundaries into the defs above).  The `identifiability_check`
callable is modelled by its returned `(ok, rank, required_rank)` triple; an
out-of-range existence class makes the `ExistenceClass(int(...))`
conversion raise, modelled as `Except.error`. -/
def structural_audit (action : ProposedAction)
    (identifiability_check : Option (Bool × Int × Int))
    (doppler_check : Option DopplerCheck)
    (node_split_check : Option NodeSplitCheck) : Except String AuditResult :=
  let velocity := action.velocity_km_s.getD 0
  if velocity ≥ C_KM_S then
    .ok { decision := "W1_VETO",
          reason := "velocity_km_s >= c violates W1 physical invariants", delta := 0 }
  else
    let idres : Bool × Option Int × Option Int :=
      match identifiability_check with
      | some (b, r, rr) => (b, some r, some rr)
      | none => (action.is_identifiable.getD false, none, none)
    let identifiable := idres.1
    let rank := idres.2.1
    let required_rank := idres.2.2
    if identifiable = false then
      .ok { decision := "W2_VETO", reason := "non-identifiable system; refusal to infer",
            delta := 0, rank := rank, required_rank := required_rank }
    else
      match action.current_existence_class, action.target_existence_class with
      | some c, some t =>
        if (0 ≤ c ∧ c ≤ 5) ∧ (0 ≤ t ∧ t ≤ 5) then
          let promotion := evaluate_existence_promotion c t
            (action.new_evidence_count.getD 0) (action.new_constraint_count.getD 0)
            (action.coherence.getD 0)
          if promotion.allowed = false then
            .ok { decision := "EPISTEMIC_VETO",
                  reason := "existence_promotion_blocked:" ++ promotion.reason,
                  delta := 0, rank := rank, required_rank := required_rank }
          else doppler_gate action doppler_check node_split_check rank required_rank
        else .error "invalid existence class value"
      | _, _ => doppler_gate action doppler_check node_split_check rank required_rank

end

end ACE

/-- A node-split check that is symmetric with sufficient evidence (or is
absent) falls through to the admissibility tail. -/
theorem node_split_gate_pass (action : ACE.ProposedAction)
    (nsc : Option ACE.NodeSplitCheck) (rank rr : Option Int) (dok : Option Bool)
    (hns : ∀ n, nsc = some n → n.matrix_is_symmetric.getD false = true ∧
      ¬ (n.evidence_score.getD 0 < action.min_node_evidence_score.getD 0)) :
    ACE.node_split_gate action nsc rank rr dok
      = ACE.admissibility_tail action rank rr dok := by
  cases nsc with
  | none => rfl
  | some n =>
    obtain ⟨h1, h2⟩ := hns n rfl
    simp only [ACE.node_split_gate]
    rw [if_neg (by simp [h1]), if_neg h2]

/-- A doppler check that is within threshold (or absent), followed by a
passing node-split check, falls through to the admissibility tail. -/
theorem doppler_gate_pass (action : ACE.ProposedAction)
    (dop : Option ACE.DopplerCheck) (nsc : Option ACE.NodeSplitCheck)
    (rank rr : Option Int)
    (hdop : ∀ d, dop = some d → d.within_threshold.getD false = true)
    (hns : ∀ n, nsc = some n → n.matrix_is_symmetric.getD false = true ∧
      ¬ (n.evidence_score.getD 0 < action.min_node_evidence_score.getD 0)) :
    ∃ dok, ACE.doppler_gate action dop nsc rank rr
      = ACE.admissibility_tail action rank rr dok := by
  cases dop with
  | none =>
    exact ⟨none, node_split_gate_pass action nsc rank rr none hns⟩
  | some d =>
    refine ⟨some true, ?_⟩
    simp only [ACE.doppler_gate]
    rw [if_neg (by simp [hdop d rfl])]
    exact node_split_gate_pass action nsc rank rr (some true) hns

/-- **C8**: for a proposed action passing the W1 physical, W2
identifiability, epistemic, telemetry and structural gates, the
admissibility score is `delta = utility * lambda_val^2`: a non-positive
product is a terminal `HARD_STOP` reporting `delta = 0`, a positive
product is `ADMISSIBLE` carrying exactly that product. -/
theorem spec_c8_multiplicative_admissibility (action : ACE.ProposedAction)
    (identifiability_check : Option (Bool × Int × Int))
    (doppler_check : Option ACE.DopplerCheck)
    (node_split_check : Option ACE.NodeSplitCheck)
    (hv : action.velocity_km_s.getD 0 < ACE.C_KM_S)
    (hident : (match identifiability_check with
      | some (b, _, _) => b
      | none => action.is_identifiable.getD false) = true)
    (hepi : ∀ c t, action.current_existence_class = some c →
      action.target_existence_class = some t →
      ((0 ≤ c ∧ c ≤ 5) ∧ (0 ≤ t ∧ t ≤ 5)) ∧
      (ACE.evaluate_existence_promotion c t (action.new_evidence_count.getD 0)
        (action.new_constraint_count.getD 0) (action.coherence.getD 0)).allowed = true)
    (hdop : ∀ d, doppler_check = some d → d.within_threshold.getD false = true)
    (hns : ∀ n, node_split_check = some n → n.matrix_is_symmetric.getD false = true ∧
      ¬ (n.evidence_score.getD 0 < action.min_node_evidence_score.getD 0)) :
    ∃ r : ACE.AuditResult,
      ACE.structural_audit action identifiability_check doppler_check node_split_check
        = .ok r ∧
      (ACE.master_admissibility (action.utility.getD 0) (action.lambda_val.getD 0) ≤ 0 →
        r.decision = "HARD_STOP" ∧ r.delta = 0) ∧
      (0 < ACE.master_admissibility (action.utility.getD 0) (action.lambda_val.getD 0) →
        r.decision = "ADMISSIBLE" ∧
        r.delta = action.utility.getD 0 * (action.lambda_val.getD 0) ^ 2) := by
  have hgate : ∃ rank rr,
      ACE.structural_audit action identifiability_check doppler_check node_split_check
        = ACE.doppler_gate action doppler_check node_split_check rank rr := by
    unfold ACE.structural_audit
    rw [if_neg (not_le.mpr hv)]
    cases identifiability_check with
    | none =>
      have hid2 : action.is_identifiable.getD false = true := hident
      rw [if_neg (by simp [hid2])]
      cases hcur : action.current_existence_class with
      | none => exact ⟨none, none, rfl⟩
      | some c =>
        cases htar : action.target_existence_class with
        | none => exact ⟨none, none, rfl⟩
        | some t =>
          obtain ⟨hrange, hallow⟩ := hepi c t hcur htar
          dsimp only
          rw [if_pos hrange, if_neg (by simp [hallow])]
          exact ⟨none, none, rfl⟩
    | some triple =>
      obtain ⟨b, r0, rr0⟩ := triple
      have hid2 : b = true := hident
      rw [if_neg (by simp [hid2])]
      cases hcur : action.current_existence_class with
      | none => exact ⟨some r0, some rr0, rfl⟩
      | some c =>
        cases htar : action.target_existence_class with
        | none => exact ⟨some r0, some rr0, rfl⟩
        | some t =>
          obtain ⟨hrange, hallow⟩ := hepi c t hcur htar
          dsimp only
          rw [if_pos hrange, if_neg (by simp [hallow])]
          exact ⟨some r0, some rr0, rfl⟩
  obtain ⟨rank, rr, hg⟩ := hgate
  obtain ⟨dok, hdg⟩ := doppler_gate_pass action doppler_check node_split_check rank rr
    hdop hns
  rw [hg, hdg]
  by_cases hdelta : ACE.master_admissibility (action.utility.getD 0)
      (action.lambda_val.getD 0) ≤ 0
  · refine ⟨{ decision := "HARD_STOP", reason := "admissibility collapsed to zero",
              delta := 0, rank := rank, required_rank := rr, doppler_ok := dok },
            ?_, fun _ => ⟨rfl, rfl⟩, fun hpos => absurd hdelta (not_le.mpr hpos)⟩
    unfold ACE.admissibility_tail
    rw [if_pos hdelta]
  · refine ⟨{ decision := "ADMISSIBLE", reason := "all active gates passed",
              delta := ACE.master_admissibility (action.utility.getD 0)
                (action.lambda_val.getD 0),
              rank := rank, required_rank := rr, doppler_ok := dok },
            ?_, fun hle => absurd hle hdelta, fun _ => ⟨rfl, rfl⟩⟩
    unfold ACE.admissibility_tail
    rw [if_neg hdelta]

/-- Witness for C8: `utility = 0.82` with `lambda_val = 0` collapses the
score to `0` and the audit terminates in `HARD_STOP`, however high the
utility. -/
theorem spec_c8_multiplicative_admissibility_witness :
    ∃ r : ACE.AuditResult,
      ACE.structural_audit
        { is_identifiable := some true, utility := some 0.82, lambda_val := some 0 }
        none none none = .ok r ∧
      r.decision = "HARD_STOP" ∧ r.delta = 0 := by
  obtain ⟨r, h1, h2, h3⟩ := spec_c8_multiplicative_admissibility
    { is_identifiable := some true, utility := some 0.82, lambda_val := some 0 }
    none none none
    (by norm_num [ACE.C_KM_S])
    rfl
    (fun c t hc ht => by cases hc)
    (fun d hd => by cases hd)
    (fun n hn => by cases hn)
  have hze : ACE.master_admissibility ((0.82 : ℝ)) ((0 : ℝ)) ≤ 0 := by
    norm_num [ACE.master_admissibility]
  exact ⟨r, h1, (h2 hze).1, (h2 hze).2⟩
